import Mathlib

/-!
Shallow embedding of `src/demos/piano/soloud_biquadresonantfilter.cpp`
(SoLoud biquad resonant filter, Phil Burk design).

Modelling conventions:
* C++ `float` values are embedded as `ℚ` with exact arithmetic; the
  transcendental functions `sin`, `cos` and the constant `M_PI` used by
  `calcBQRParams` are abstracted into a `TransOps` record, since the claims
  state the coefficient formulas symbolically in terms of `sin`/`cos`.
* The sample buffer (`float *aBuffer`) is a total map `ℕ → ℚ`; a store to
  `aBuffer[j]` is `Function.update`.
* The C++ `int` members `mActive`/`mDirty`, only ever written 0 or 1 and
  tested for truth, are embedded as `Bool`.
* The `Fader` class and the header enums are not part of the given source
  tree; they are modelled from the spec where needed (see doc comments).
-/

namespace SoLoud

/-- Abstracted transcendental operations used by `calcBQRParams`
(`sin`, `cos` from `<math.h>` and the constant `M_PI`). -/
structure TransOps where
  sin : ℚ → ℚ
  cos : ℚ → ℚ
  pi : ℚ

/-- Modelled from the spec (§3): the filter-type enumeration
`{NONE, LOWPASS, HIGHPASS, BANDPASS}` declared in the missing header
`soloud_biquadresonantfilter.h`. -/
inductive FILTERTYPE where
  | NONE
  | LOWPASS
  | HIGHPASS
  | BANDPASS
deriving DecidableEq, Repr

/-- Modelled from the spec (§6): attribute identifier `FREQUENCY = 0`
from the missing header. -/
def FREQUENCY : ℤ := 0

/-- Modelled from the spec (§6): attribute identifier `SAMPLERATE = 1`
from the missing header. -/
def SAMPLERATE : ℤ := 1

/-- Modelled from the spec (§6): attribute identifier `RESONANCE = 2`
from the missing header. -/
def RESONANCE : ℤ := 2

/-- Modelled from the spec (§3, §4.2): the state of a parameter
interpolator (`SoLoud::Fader`), whose source is not in the given tree.
`mActive`: 0 = inactive, 1 = one-shot ramp, 2 = repeating oscillation. -/
structure Fader where
  mActive : ℤ
  mFrom : ℚ
  mTo : ℚ
  mTime : ℚ
  mStartTime : ℚ
deriving DecidableEq, Repr

/-- Modelled from the spec (§3): a default-constructed fader is inactive. -/
def Fader.init : Fader := ⟨0, 0, 0, 0, 0⟩

/-- Modelled from the spec (§4.2): `Fader::set` arms a one-shot linear
ramp (the `from == to` / `duration <= 0` guard lives in the callers in the
given source, lines 173 and 190). -/
def Fader.set (aFrom aTo aTime aStartTime : ℚ) : Fader :=
  { mActive := 1, mFrom := aFrom, mTo := aTo, mTime := aTime,
    mStartTime := aStartTime }

/-- Modelled from the spec (§4.2): `Fader::setLFO` arms a repeating
oscillation between the two bounds with period `aTime`. -/
def Fader.setLFO (aFrom aTo aTime aStartTime : ℚ) : Fader :=
  { mActive := 2, mFrom := aFrom, mTo := aTo, mTime := aTime,
    mStartTime := aStartTime }

/-- Modelled from the spec (§4.2): `Fader::get` returns the interpolated
value at absolute time `t` together with the updated fader state.  For an
oscillation (`mActive = 2`) it is periodic in `(t - startTime) mod duration`
spanning `[from, to]` and never self-deactivates; for a ramp it is linear
interpolation clamped to the bounds, and once `t ≥ startTime + duration`
it reports `to` and transitions to inactive. -/
def Fader.get (f : Fader) (t : ℚ) : ℚ × Fader :=
  if f.mActive = 2 then
    let phase := (t - f.mStartTime) / f.mTime
    let frac := phase - ((Int.floor phase : ℤ) : ℚ)
    (f.mFrom + (f.mTo - f.mFrom) * frac, f)
  else if f.mStartTime + f.mTime ≤ t then
    (f.mTo, { f with mActive := 0 })
  else
    let rel := (t - f.mStartTime) / f.mTime
    let relc := max 0 (min 1 rel)
    (f.mFrom + (f.mTo - f.mFrom) * relc, f)

/-- The template object `SoLoud::BiquadResonantFilter` (lines 209–224):
baseline configuration copied into instances at creation. -/
structure BiquadResonantFilter where
  mFilterType : FILTERTYPE
  mSampleRate : ℚ
  mFrequency : ℚ
  mResonance : ℚ
deriving DecidableEq, Repr

/-- `BiquadResonantFilter::setParams` (lines 214–220). -/
def BiquadResonantFilter.setParams (f : BiquadResonantFilter)
    (aType : FILTERTYPE) (aSampleRate aFrequency aResonance : ℚ) :
    BiquadResonantFilter :=
  { f with mFilterType := aType, mSampleRate := aSampleRate,
           mFrequency := aFrequency, mResonance := aResonance }

/-- The per-channel recursion history `x1, x2, y1, y2` (one slot of the
arrays `mX1[2], mX2[2], mY1[2], mY2[2]`). -/
structure BiquadState where
  x1 : ℚ
  x2 : ℚ
  y1 : ℚ
  y2 : ℚ
deriving DecidableEq, Repr

/-- The instance object `SoLoud::BiquadResonantFilterInstance`: working
parameter copies, activity and dirty flags, the five cached coefficients,
two channels of recursion history, and one fader per tunable parameter. -/
structure BiquadResonantFilterInstance where
  mFilterType : FILTERTYPE
  mSampleRate : ℚ
  mFrequency : ℚ
  mResonance : ℚ
  mActive : Bool
  mDirty : Bool
  mA0 : ℚ
  mA1 : ℚ
  mA2 : ℚ
  mB1 : ℚ
  mB2 : ℚ
  mX1 : Fin 2 → ℚ
  mX2 : Fin 2 → ℚ
  mY1 : Fin 2 → ℚ
  mY2 : Fin 2 → ℚ
  mFrequencyFader : Fader
  mSampleRateFader : Fader
  mResonanceFader : Fader

namespace BiquadResonantFilterInstance

/-- `BiquadResonantFilterInstance::calcBQRParams` (lines 36–75): clear the
dirty flag, derive `omega`, `sin_omega`, `cos_omega`, `alpha`, `scalar`,
set `mActive = 1`, then switch on the filter type (NONE deactivates the
instance and writes no coefficients). -/
def calcBQRParams (ops : TransOps) (st : BiquadResonantFilterInstance) :
    BiquadResonantFilterInstance :=
  let st := { st with mDirty := false }
  let omega : ℚ := 2 * ops.pi * st.mFrequency / st.mSampleRate
  let sin_omega : ℚ := ops.sin omega
  let cos_omega : ℚ := ops.cos omega
  let alpha : ℚ := sin_omega / (2 * st.mResonance)
  let scalar : ℚ := 1 / (1 + alpha)
  let st := { st with mActive := true }
  match st.mFilterType with
  | FILTERTYPE.NONE => { st with mActive := false }
  | FILTERTYPE.LOWPASS =>
      let a0 := 0.5 * (1 - cos_omega) * scalar
      { st with mA0 := a0, mA1 := (1 - cos_omega) * scalar, mA2 := a0,
                mB1 := -2 * cos_omega * scalar, mB2 := (1 - alpha) * scalar }
  | FILTERTYPE.HIGHPASS =>
      let a0 := 0.5 * (1 + cos_omega) * scalar
      { st with mA0 := a0, mA1 := -((1 + cos_omega) * scalar), mA2 := a0,
                mB1 := -2 * cos_omega * scalar, mB2 := (1 - alpha) * scalar }
  | FILTERTYPE.BANDPASS =>
      let a0 := alpha * scalar
      { st with mA0 := a0, mA1 := 0, mA2 := -a0,
                mB1 := -2 * cos_omega * scalar, mB2 := (1 - alpha) * scalar }

/-- Fields of the instance that the C++ constructor (lines 78–88) does
not initialize before `calcBQRParams` runs: `mFrequency`, the five
coefficients, and the two flags start out as indeterminate memory. -/
structure UninitMem where
  mFrequency : ℚ
  mActive : Bool
  mDirty : Bool
  mA0 : ℚ
  mA1 : ℚ
  mA2 : ℚ
  mB1 : ℚ
  mB2 : ℚ

/-- `BiquadResonantFilterInstance::BiquadResonantFilterInstance` (lines
78–88): zero both channels of history, copy `mFilterType`, `mSampleRate`,
`mResonance` from the parent template (not `mFrequency`), then call
`calcBQRParams`.  `mem` supplies the values of the members the constructor
leaves uninitialized; the member faders default-construct to inactive. -/
def construct (ops : TransOps) (aParent : BiquadResonantFilter)
    (mem : UninitMem) : BiquadResonantFilterInstance :=
  let st : BiquadResonantFilterInstance :=
    { mFilterType := aParent.mFilterType
      mSampleRate := aParent.mSampleRate
      mFrequency := mem.mFrequency
      mResonance := aParent.mResonance
      mActive := mem.mActive
      mDirty := mem.mDirty
      mA0 := mem.mA0, mA1 := mem.mA1, mA2 := mem.mA2
      mB1 := mem.mB1, mB2 := mem.mB2
      mX1 := fun _ => 0, mX2 := fun _ => 0
      mY1 := fun _ => 0, mY2 := fun _ => 0
      mFrequencyFader := Fader.init
      mSampleRateFader := Fader.init
      mResonanceFader := Fader.init }
  calcBQRParams ops st

/-- The inner sample loop of `filter` for one channel `s` (lines 125–141):
two samples per iteration, `i` stepping by 2 while `i < aSamples`, with the
source's permuted register rotation of `x1, x2, y1, y2`. -/
def filterLoop (a0 a1 a2 b1 b2 : ℚ) (pitch : ℕ) (s : Fin 2) (i n : ℕ)
    (buf : ℕ → ℚ) (st : BiquadState) : (ℕ → ℚ) × BiquadState :=
  if h : i < n then
    let x := buf (i * pitch + (s : ℕ))
    let ny2 := a0 * x + a1 * st.x1 + a2 * st.x2 - b1 * st.y1 - b2 * st.y2
    let buf1 := Function.update buf (i * pitch + (s : ℕ)) ny2
    let nx2 := buf1 ((i + 1) * pitch + (s : ℕ))
    let ny1 := a0 * nx2 + a1 * x + a2 * st.x1 - b1 * ny2 - b2 * st.y1
    let buf2 := Function.update buf1 ((i + 1) * pitch + (s : ℕ)) ny1
    filterLoop a0 a1 a2 b1 b2 pitch s (i + 2) n buf2
      { x1 := nx2, x2 := x, y1 := ny1, y2 := ny2 }
  else (buf, st)
termination_by n - i
decreasing_by omega

/-- Modelled from the spec (§4.3 step 4, C2's reference realization): the
naive one-sample-at-a-time direct-form recurrence
`y[n] = a0·x[n] + a1·x[n-1] + a2·x[n-2] − b1·y[n-1] − b2·y[n-2]`,
walking the same channel of the same interleaved buffer and rotating the
history by one sample each step. -/
def directFormLoop (a0 a1 a2 b1 b2 : ℚ) (pitch : ℕ) (s : Fin 2) (i n : ℕ)
    (buf : ℕ → ℚ) (st : BiquadState) : (ℕ → ℚ) × BiquadState :=
  if h : i < n then
    let x := buf (i * pitch + (s : ℕ))
    let y := a0 * x + a1 * st.x1 + a2 * st.x2 - b1 * st.y1 - b2 * st.y2
    directFormLoop a0 a1 a2 b1 b2 pitch s (i + 1) n
      (Function.update buf (i * pitch + (s : ℕ)) y)
      { x1 := x, x2 := st.x1, y1 := y, y2 := st.y1 }
  else (buf, st)
termination_by n - i
decreasing_by omega

/-- The per-channel body of `filter` (lines 123–146): run the sample loop
on channel `s`, write the rotated history back, and add the `1.0E-26`
denormal-avoidance bias to that channel's `mY1`. -/
def processChannel (pitch n : ℕ) (s : Fin 2) (buf : ℕ → ℚ)
    (st : BiquadResonantFilterInstance) :
    (ℕ → ℚ) × BiquadResonantFilterInstance :=
  let r := filterLoop st.mA0 st.mA1 st.mA2 st.mB1 st.mB2 pitch s 0 n buf
    { x1 := st.mX1 s, x2 := st.mX2 s, y1 := st.mY1 s, y2 := st.mY2 s }
  (r.1,
   { st with
     mX1 := Function.update st.mX1 s r.2.x1
     mX2 := Function.update st.mX2 s r.2.x2
     mY1 := Function.update st.mY1 s (r.2.y1 + 1 / 10 ^ 26)
     mY2 := Function.update st.mY2 s r.2.y2 })

/-- Lines 98–102 of `filter`: poll the frequency fader if it is active. -/
def updateFreqFader (st : BiquadResonantFilterInstance) (aTime : ℚ) :
    BiquadResonantFilterInstance :=
  if st.mFrequencyFader.mActive > 0 then
    let r := st.mFrequencyFader.get aTime
    { st with mDirty := true, mFrequency := r.1, mFrequencyFader := r.2 }
  else st

/-- Lines 104–108 of `filter`: poll the resonance fader if it is active. -/
def updateResFader (st : BiquadResonantFilterInstance) (aTime : ℚ) :
    BiquadResonantFilterInstance :=
  if st.mResonanceFader.mActive > 0 then
    let r := st.mResonanceFader.get aTime
    { st with mDirty := true, mResonance := r.1, mResonanceFader := r.2 }
  else st

/-- Lines 110–114 of `filter`: poll the sample-rate fader if active. -/
def updateSRFader (st : BiquadResonantFilterInstance) (aTime : ℚ) :
    BiquadResonantFilterInstance :=
  if st.mSampleRateFader.mActive > 0 then
    let r := st.mSampleRateFader.get aTime
    { st with mDirty := true, mSampleRate := r.1, mSampleRateFader := r.2 }
  else st

/-- The fader-polling prologue of `filter` (lines 98–114): for each of the
frequency, resonance and sample-rate faders that is active (`mActive > 0`,
in that source order), set the dirty flag and store the fader's value at
`aTime` into the matching parameter field. -/
def updateFaders (st : BiquadResonantFilterInstance) (aTime : ℚ) :
    BiquadResonantFilterInstance :=
  updateSRFader (updateResFader (updateFreqFader st aTime) aTime) aTime

/-- The parameter/coefficient stage of `filter` (lines 98–119): poll the
faders, then recompute the coefficients when the dirty flag is set. -/
def filterParamStage (ops : TransOps) (st : BiquadResonantFilterInstance)
    (aTime : ℚ) : BiquadResonantFilterInstance :=
  if (updateFaders st aTime).mDirty then
    calcBQRParams ops (updateFaders st aTime)
  else updateFaders st aTime

/-- `BiquadResonantFilterInstance::filter` (lines 90–147): return
immediately when inactive; otherwise poll the faders, recompute dirty
coefficients, and run the sample loop on channel 0 (and channel 1 when
stereo, with `pitch = 2`).  The `aSamplerate` argument is unused, as in
the source. -/
def filter (ops : TransOps) (st : BiquadResonantFilterInstance)
    (aBuffer : ℕ → ℚ) (aSamples : ℕ) (aStereo : Bool)
    (aSamplerate aTime : ℚ) : BiquadResonantFilterInstance × (ℕ → ℚ) :=
  if st.mActive = false then (st, aBuffer)
  else
    let st := filterParamStage ops st aTime
    let pitch := if aStereo then 2 else 1
    let r0 := processChannel pitch aSamples 0 aBuffer st
    if aStereo then
      let r1 := processChannel pitch aSamples 1 r0.1 r0.2
      (r1.2, r1.1)
    else (r0.2, r0.1)

/-- `BiquadResonantFilterInstance::setFilterParameter` (lines 149–169):
switch on the attribute id; each recognized attribute sets the dirty flag,
deactivates the matching fader and stores the value; any other id falls
out of the switch without effect. -/
def setFilterParameter (st : BiquadResonantFilterInstance)
    (aAttributeId : ℤ) (aValue : ℚ) : BiquadResonantFilterInstance :=
  if aAttributeId = FREQUENCY then
    { st with mDirty := true
              mFrequencyFader := { st.mFrequencyFader with mActive := 0 }
              mFrequency := aValue }
  else if aAttributeId = SAMPLERATE then
    { st with mDirty := true
              mSampleRateFader := { st.mSampleRateFader with mActive := 0 }
              mSampleRate := aValue }
  else if aAttributeId = RESONANCE then
    { st with mDirty := true
              mResonanceFader := { st.mResonanceFader with mActive := 0 }
              mResonance := aValue }
  else st

/-- `BiquadResonantFilterInstance::fadeFilterParameter` (lines 171–186):
return unchanged when `aFrom == aTo` or `aTime <= 0`; otherwise arm a ramp
on the fader selected by the attribute id (unknown ids: no effect). -/
def fadeFilterParameter (st : BiquadResonantFilterInstance)
    (aAttributeId : ℤ) (aFrom aTo aTime aStartTime : ℚ) :
    BiquadResonantFilterInstance :=
  if aFrom = aTo ∨ aTime ≤ 0 then st
  else if aAttributeId = FREQUENCY then
    { st with mFrequencyFader := Fader.set aFrom aTo aTime aStartTime }
  else if aAttributeId = SAMPLERATE then
    { st with mSampleRateFader := Fader.set aFrom aTo aTime aStartTime }
  else if aAttributeId = RESONANCE then
    { st with mResonanceFader := Fader.set aFrom aTo aTime aStartTime }
  else st

/-- `BiquadResonantFilterInstance::oscillateFilterParameter` (lines
188–203): same guard as `fadeFilterParameter`, arming an oscillation. -/
def oscillateFilterParameter (st : BiquadResonantFilterInstance)
    (aAttributeId : ℤ) (aFrom aTo aTime aStartTime : ℚ) :
    BiquadResonantFilterInstance :=
  if aFrom = aTo ∨ aTime ≤ 0 then st
  else if aAttributeId = FREQUENCY then
    { st with mFrequencyFader := Fader.setLFO aFrom aTo aTime aStartTime }
  else if aAttributeId = SAMPLERATE then
    { st with mSampleRateFader := Fader.setLFO aFrom aTo aTime aStartTime }
  else if aAttributeId = RESONANCE then
    { st with mResonanceFader := Fader.setLFO aFrom aTo aTime aStartTime }
  else st

/-- The five cached coefficients of an instance, as a tuple (used to state
coefficient identity between states). -/
def coeffs (st : BiquadResonantFilterInstance) : ℚ × ℚ × ℚ × ℚ × ℚ :=
  (st.mA0, st.mA1, st.mA2, st.mB1, st.mB2)

/-- Coefficient consistency (spec §3 invariant): recomputing the
coefficients from the instance's current `type/sampleRate/frequency/
resonance` reproduces the stored `a0, a1, a2, b1, b2`. -/
def coeffsConsistent (ops : TransOps)
    (st : BiquadResonantFilterInstance) : Prop :=
  coeffs (calcBQRParams ops st) = coeffs st

/-- The spec §3 invariant: whenever the dirty flag is clear, the stored
coefficients agree with the §4.1 coefficients of the current parameters. -/
def Inv (ops : TransOps) (st : BiquadResonantFilterInstance) : Prop :=
  st.mDirty = false → coeffsConsistent ops st

instance (ops : TransOps) (st : BiquadResonantFilterInstance) :
    Decidable (coeffsConsistent ops st) := by
  unfold coeffsConsistent; infer_instance

instance (ops : TransOps) (st : BiquadResonantFilterInstance) :
    Decidable (Inv ops st) := by
  unfold Inv; infer_instance

end BiquadResonantFilterInstance

/-- `BiquadResonantFilter::createInstance` (lines 227–230). -/
def BiquadResonantFilter.createInstance (ops : TransOps)
    (f : BiquadResonantFilter)
    (mem : BiquadResonantFilterInstance.UninitMem) :
    BiquadResonantFilterInstance :=
  BiquadResonantFilterInstance.construct ops f mem

/-! Concrete data used to exercise the theorems on closed inputs. -/

/-- A concrete choice of the abstracted transcendental operations. -/
def testOps : TransOps := { sin := fun _ => 1/2, cos := fun _ => 1/3, pi := 3 }

/-- A concrete template (the source's default parameters, line 211). -/
def testTemplate : BiquadResonantFilter :=
  { mFilterType := FILTERTYPE.LOWPASS, mSampleRate := 44100,
    mFrequency := 1000, mResonance := 2 }

/-- A concrete valuation of the constructor's uninitialized members. -/
def testMem : BiquadResonantFilterInstance.UninitMem :=
  { mFrequency := 1000, mActive := false, mDirty := true,
    mA0 := 0, mA1 := 0, mA2 := 0, mB1 := 0, mB2 := 0 }

/-- A concrete lowpass instance, as built by the constructor. -/
def testInst : BiquadResonantFilterInstance :=
  BiquadResonantFilterInstance.construct testOps testTemplate testMem

/-- A concrete instance built from a type-NONE template (inactive). -/
def noneInst : BiquadResonantFilterInstance :=
  BiquadResonantFilterInstance.construct testOps
    { testTemplate with mFilterType := FILTERTYPE.NONE } testMem

/-- `testInst` with a ramp armed on the frequency fader. -/
def fadedInst : BiquadResonantFilterInstance :=
  BiquadResonantFilterInstance.fadeFilterParameter testInst FREQUENCY
    100 2000 1 0

end SoLoud

/-! ## Theorems -/

namespace SoLoud

open BiquadResonantFilterInstance

theorem calc_mFilterType (ops : TransOps) (st : BiquadResonantFilterInstance) :
    (calcBQRParams ops st).mFilterType = st.mFilterType := by
  cases h : st.mFilterType <;> simp [calcBQRParams, h]

theorem calc_mFrequency (ops : TransOps) (st : BiquadResonantFilterInstance) :
    (calcBQRParams ops st).mFrequency = st.mFrequency := by
  cases h : st.mFilterType <;> simp [calcBQRParams, h]

theorem calc_mSampleRate (ops : TransOps) (st : BiquadResonantFilterInstance) :
    (calcBQRParams ops st).mSampleRate = st.mSampleRate := by
  cases h : st.mFilterType <;> simp [calcBQRParams, h]

theorem calc_mResonance (ops : TransOps) (st : BiquadResonantFilterInstance) :
    (calcBQRParams ops st).mResonance = st.mResonance := by
  cases h : st.mFilterType <;> simp [calcBQRParams, h]

theorem calc_mDirty (ops : TransOps) (st : BiquadResonantFilterInstance) :
    (calcBQRParams ops st).mDirty = false := by
  cases h : st.mFilterType <;> simp [calcBQRParams, h]

theorem calc_mX1 (ops : TransOps) (st : BiquadResonantFilterInstance) :
    (calcBQRParams ops st).mX1 = st.mX1 := by
  cases h : st.mFilterType <;> simp [calcBQRParams, h]

theorem calc_mX2 (ops : TransOps) (st : BiquadResonantFilterInstance) :
    (calcBQRParams ops st).mX2 = st.mX2 := by
  cases h : st.mFilterType <;> simp [calcBQRParams, h]

theorem calc_mY1 (ops : TransOps) (st : BiquadResonantFilterInstance) :
    (calcBQRParams ops st).mY1 = st.mY1 := by
  cases h : st.mFilterType <;> simp [calcBQRParams, h]

theorem calc_mY2 (ops : TransOps) (st : BiquadResonantFilterInstance) :
    (calcBQRParams ops st).mY2 = st.mY2 := by
  cases h : st.mFilterType <;> simp [calcBQRParams, h]

theorem calc_mFrequencyFader (ops : TransOps)
    (st : BiquadResonantFilterInstance) :
    (calcBQRParams ops st).mFrequencyFader = st.mFrequencyFader := by
  cases h : st.mFilterType <;> simp [calcBQRParams, h]

theorem calc_mSampleRateFader (ops : TransOps)
    (st : BiquadResonantFilterInstance) :
    (calcBQRParams ops st).mSampleRateFader = st.mSampleRateFader := by
  cases h : st.mFilterType <;> simp [calcBQRParams, h]

theorem calc_mResonanceFader (ops : TransOps)
    (st : BiquadResonantFilterInstance) :
    (calcBQRParams ops st).mResonanceFader = st.mResonanceFader := by
  cases h : st.mFilterType <;> simp [calcBQRParams, h]

/-- C1: for a LOWPASS, HIGHPASS or BANDPASS instance with non-zero
resonance, `calcBQRParams` sets the five coefficients to the closed forms
of spec §4.1: with `omega = 2·π·frequency/sampleRate`,
`alpha = sin(omega)/(2·resonance)`, `scalar = 1/(1+alpha)`, it sets for
LOWPASS `a0 = a2 = 0.5·(1−cos omega)·scalar`, `a1 = (1−cos omega)·scalar`;
for HIGHPASS `a0 = a2 = 0.5·(1+cos omega)·scalar`,
`a1 = −(1+cos omega)·scalar`; for BANDPASS `a0 = alpha·scalar`, `a1 = 0`,
`a2 = −a0`; and for all three `b1 = −2·cos(omega)·scalar`,
`b2 = (1−alpha)·scalar`. -/
theorem calcBQRParams_closed_form (ops : TransOps)
    (st : BiquadResonantFilterInstance) (hres : st.mResonance ≠ 0) :
    let omega : ℚ := 2 * ops.pi * st.mFrequency / st.mSampleRate
    let alpha : ℚ := ops.sin omega / (2 * st.mResonance)
    let scalar : ℚ := 1 / (1 + alpha)
    let st' := calcBQRParams ops st
    (st.mFilterType = FILTERTYPE.LOWPASS →
      st'.mA0 = 0.5 * (1 - ops.cos omega) * scalar ∧
      st'.mA2 = 0.5 * (1 - ops.cos omega) * scalar ∧
      st'.mA1 = (1 - ops.cos omega) * scalar ∧
      st'.mB1 = -2 * ops.cos omega * scalar ∧
      st'.mB2 = (1 - alpha) * scalar) ∧
    (st.mFilterType = FILTERTYPE.HIGHPASS →
      st'.mA0 = 0.5 * (1 + ops.cos omega) * scalar ∧
      st'.mA2 = 0.5 * (1 + ops.cos omega) * scalar ∧
      st'.mA1 = -((1 + ops.cos omega) * scalar) ∧
      st'.mB1 = -2 * ops.cos omega * scalar ∧
      st'.mB2 = (1 - alpha) * scalar) ∧
    (st.mFilterType = FILTERTYPE.BANDPASS →
      st'.mA0 = alpha * scalar ∧
      st'.mA1 = 0 ∧
      st'.mA2 = -(alpha * scalar) ∧
      st'.mB1 = -2 * ops.cos omega * scalar ∧
      st'.mB2 = (1 - alpha) * scalar) := by
  refine ⟨fun h => ?_, fun h => ?_, fun h => ?_⟩ <;>
    simp [calcBQRParams, h]

/-- Witness for C1 at a concrete bandpass instance. -/
theorem calcBQRParams_closed_form_witness :
    let st := BiquadResonantFilterInstance.construct testOps
      { testTemplate with mFilterType := FILTERTYPE.BANDPASS } testMem
    st.mResonance ≠ 0 ∧
    ((st.mFilterType = FILTERTYPE.BANDPASS →
      (calcBQRParams testOps st).mA0 =
        testOps.sin (2 * testOps.pi * st.mFrequency / st.mSampleRate) /
          (2 * st.mResonance) *
          (1 / (1 + testOps.sin
            (2 * testOps.pi * st.mFrequency / st.mSampleRate) /
            (2 * st.mResonance))))) :=
  ⟨by decide, fun h =>
    ((calcBQRParams_closed_form testOps _ (by decide)).2.2 h).1⟩

/-- C3: an inactive instance's `filter` call returns immediately: the
buffer and every field of the instance are unchanged; and computing
coefficients with type NONE is exactly what makes an instance inactive. -/
theorem filter_inactive_identity (ops : TransOps)
    (st : BiquadResonantFilterInstance) (buf : ℕ → ℚ) (n : ℕ)
    (stereo : Bool) (sr t : ℚ) (h : st.mActive = false) :
    filter ops st buf n stereo sr t = (st, buf) ∧
    ∀ st2 : BiquadResonantFilterInstance,
      st2.mFilterType = FILTERTYPE.NONE →
      (calcBQRParams ops st2).mActive = false := by
  constructor
  · simp [filter, h]
  · intro st2 h2
    simp [calcBQRParams, h2]

/-- Witness for C3: the type-NONE instance is inactive and a concrete
`filter` call on it is the identity. -/
theorem filter_inactive_identity_witness :
    filter testOps noneInst (fun _ => 7) 4 true 44100 0 =
      (noneInst, fun _ => 7) ∧
    ∀ st2 : BiquadResonantFilterInstance,
      st2.mFilterType = FILTERTYPE.NONE →
      (calcBQRParams testOps st2).mActive = false :=
  filter_inactive_identity testOps noneInst (fun _ => 7) 4 true 44100 0
    (by decide)

/-- C7: with `from = to` or `duration ≤ 0`, both `fadeFilterParameter` and
`oscillateFilterParameter` return with the instance (in particular all
fader state) unchanged, for every attribute id. -/
theorem degenerate_fade_oscillate_noop (st : BiquadResonantFilterInstance)
    (aAttributeId : ℤ) (aFrom aTo aTime aStartTime : ℚ)
    (h : aFrom = aTo ∨ aTime ≤ 0) :
    fadeFilterParameter st aAttributeId aFrom aTo aTime aStartTime = st ∧
    oscillateFilterParameter st aAttributeId aFrom aTo aTime aStartTime
      = st := by
  constructor <;> simp [fadeFilterParameter, oscillateFilterParameter, h]

/-- Witness for C7 at a concrete degenerate request. -/
theorem degenerate_fade_oscillate_noop_witness :
    fadeFilterParameter testInst FREQUENCY 5 5 1 0 = testInst ∧
    oscillateFilterParameter testInst FREQUENCY 5 5 1 0 = testInst :=
  degenerate_fade_oscillate_noop testInst FREQUENCY 5 5 1 0 (Or.inl rfl)

/-- C5: `setFilterParameter` with id FREQUENCY (resp. SAMPLERATE,
RESONANCE) writes the value into the corresponding field, deactivates that
field's fader, and sets the dirty flag (all other fields, including the
other two faders and the untouched fields of the deactivated fader,
unchanged); any other attribute id leaves the instance unchanged. -/
theorem setFilterParameter_spec (st : BiquadResonantFilterInstance)
    (v : ℚ) :
    (setFilterParameter st FREQUENCY v =
      { st with mDirty := true
                mFrequencyFader := { st.mFrequencyFader with mActive := 0 }
                mFrequency := v }) ∧
    (setFilterParameter st SAMPLERATE v =
      { st with mDirty := true
                mSampleRateFader := { st.mSampleRateFader with mActive := 0 }
                mSampleRate := v }) ∧
    (setFilterParameter st RESONANCE v =
      { st with mDirty := true
                mResonanceFader := { st.mResonanceFader with mActive := 0 }
                mResonance := v }) ∧
    ∀ id : ℤ, id ≠ FREQUENCY → id ≠ SAMPLERATE → id ≠ RESONANCE →
      setFilterParameter st id v = st := by
  refine ⟨?_, ?_, ?_, fun id h0 h1 h2 => ?_⟩
  · simp [setFilterParameter, FREQUENCY, SAMPLERATE, RESONANCE]
  · simp [setFilterParameter, FREQUENCY, SAMPLERATE, RESONANCE]
  · simp [setFilterParameter, FREQUENCY, SAMPLERATE, RESONANCE]
  · simp only [FREQUENCY, SAMPLERATE, RESONANCE] at h0 h1 h2
    simp [setFilterParameter, FREQUENCY, SAMPLERATE, RESONANCE, h0, h1, h2]

/-- Witness for C5: a concrete frequency write and a concrete unknown-id
no-op. -/
theorem setFilterParameter_spec_witness :
    (setFilterParameter testInst FREQUENCY 500 =
      { testInst with
          mDirty := true
          mFrequencyFader := { testInst.mFrequencyFader with mActive := 0 }
          mFrequency := 500 }) ∧
    setFilterParameter testInst 7 500 = testInst :=
  ⟨(setFilterParameter_spec testInst 500).1,
   (setFilterParameter_spec testInst 500).2.2.2 7 (by decide) (by decide)
     (by decide)⟩

/-- The two realizations of the channel loop agree on any stretch of
`2·k` remaining iterations. -/
theorem filterLoop_eq_directFormLoop_aux (a0 a1 a2 b1 b2 : ℚ)
    (pitch : ℕ) (s : Fin 2) :
    ∀ (k i : ℕ) (buf : ℕ → ℚ) (st : BiquadState),
    filterLoop a0 a1 a2 b1 b2 pitch s i (i + 2 * k) buf st =
    directFormLoop a0 a1 a2 b1 b2 pitch s i (i + 2 * k) buf st := by
  intro k
  induction k with
  | zero =>
    intro i buf st
    rw [filterLoop, directFormLoop]
    simp
  | succ k ih =>
    intro i buf st
    rw [filterLoop, directFormLoop]
    rw [dif_pos (show i < i + 2 * (k + 1) by omega),
        dif_pos (show i < i + 2 * (k + 1) by omega)]
    rw [directFormLoop]
    rw [dif_pos (show i + 1 < i + 2 * (k + 1) by omega)]
    have hn : i + 2 * (k + 1) = (i + 2) + 2 * k := by ring
    rw [hn]
    exact ih (i + 2) _ _

/-- C2: for every even sample count and every channel (any interleave
pitch and channel offset), the source's permuted two-samples-per-iteration
loop produces the same written buffer contents and the same final
`x1, x2, y1, y2` history as the naive one-sample-at-a-time direct-form
recurrence seeded from the same history. -/
theorem filterLoop_eq_directFormLoop (a0 a1 a2 b1 b2 : ℚ) (pitch : ℕ)
    (s : Fin 2) (n : ℕ) (buf : ℕ → ℚ) (st : BiquadState)
    (h : n % 2 = 0) :
    filterLoop a0 a1 a2 b1 b2 pitch s 0 n buf st =
    directFormLoop a0 a1 a2 b1 b2 pitch s 0 n buf st := by
  obtain ⟨k, rfl⟩ : ∃ k, n = 0 + 2 * k := ⟨n / 2, by omega⟩
  exact filterLoop_eq_directFormLoop_aux a0 a1 a2 b1 b2 pitch s k 0 buf st

/-- Witness for C2 at a concrete four-sample mono channel. -/
theorem filterLoop_eq_directFormLoop_witness :
    (4 : ℕ) % 2 = 0 ∧
    filterLoop 1 2 3 4 5 1 0 0 4 (fun j => (j : ℚ)) ⟨0, 0, 0, 0⟩ =
    directFormLoop 1 2 3 4 5 1 0 0 4 (fun j => (j : ℚ)) ⟨0, 0, 0, 0⟩ :=
  ⟨rfl, filterLoop_eq_directFormLoop 1 2 3 4 5 1 0 4 (fun j => (j : ℚ))
    ⟨0, 0, 0, 0⟩ rfl⟩

theorem calc_coeffs_congr (ops : TransOps)
    (st st' : BiquadResonantFilterInstance)
    (ht : st'.mFilterType = st.mFilterType)
    (hf : st'.mFrequency = st.mFrequency)
    (hs : st'.mSampleRate = st.mSampleRate)
    (hr : st'.mResonance = st.mResonance)
    (hc : coeffs st' = coeffs st) :
    coeffs (calcBQRParams ops st') = coeffs (calcBQRParams ops st) := by
  cases h : st.mFilterType <;>
    simp [calcBQRParams, coeffs, ht, hf, hs, hr, h] at hc ⊢ <;>
    simp [hc]

theorem calc_consistent (ops : TransOps)
    (st : BiquadResonantFilterInstance) :
    coeffsConsistent ops (calcBQRParams ops st) := by
  unfold coeffsConsistent
  cases h : st.mFilterType <;> simp [calcBQRParams, coeffs, h]

theorem calc_idem (ops : TransOps) (st : BiquadResonantFilterInstance) :
    calcBQRParams ops (calcBQRParams ops st) = calcBQRParams ops st := by
  cases h : st.mFilterType <;> simp [calcBQRParams, h]

theorem updateFreqFader_cases (st : BiquadResonantFilterInstance)
    (t : ℚ) :
    updateFreqFader st t = st ∨
    updateFreqFader st t =
      { st with mDirty := true
                mFrequency := (st.mFrequencyFader.get t).1
                mFrequencyFader := (st.mFrequencyFader.get t).2 } := by
  unfold updateFreqFader
  split_ifs <;> simp

theorem updateResFader_cases (st : BiquadResonantFilterInstance)
    (t : ℚ) :
    updateResFader st t = st ∨
    updateResFader st t =
      { st with mDirty := true
                mResonance := (st.mResonanceFader.get t).1
                mResonanceFader := (st.mResonanceFader.get t).2 } := by
  unfold updateResFader
  split_ifs <;> simp

theorem updateSRFader_cases (st : BiquadResonantFilterInstance)
    (t : ℚ) :
    updateSRFader st t = st ∨
    updateSRFader st t =
      { st with mDirty := true
                mSampleRate := (st.mSampleRateFader.get t).1
                mSampleRateFader := (st.mSampleRateFader.get t).2 } := by
  unfold updateSRFader
  split_ifs <;> simp

theorem updateFreqFader_active (st : BiquadResonantFilterInstance)
    (t : ℚ) (h : st.mFrequencyFader.mActive > 0) :
    updateFreqFader st t =
      { st with mDirty := true
                mFrequency := (st.mFrequencyFader.get t).1
                mFrequencyFader := (st.mFrequencyFader.get t).2 } := by
  unfold updateFreqFader
  rw [if_pos h]

theorem updateResFader_active (st : BiquadResonantFilterInstance)
    (t : ℚ) (h : st.mResonanceFader.mActive > 0) :
    updateResFader st t =
      { st with mDirty := true
                mResonance := (st.mResonanceFader.get t).1
                mResonanceFader := (st.mResonanceFader.get t).2 } := by
  unfold updateResFader
  rw [if_pos h]

theorem updateSRFader_active (st : BiquadResonantFilterInstance)
    (t : ℚ) (h : st.mSampleRateFader.mActive > 0) :
    updateSRFader st t =
      { st with mDirty := true
                mSampleRate := (st.mSampleRateFader.get t).1
                mSampleRateFader := (st.mSampleRateFader.get t).2 } := by
  unfold updateSRFader
  rw [if_pos h]

theorem updateFaders_frame (st : BiquadResonantFilterInstance) (t : ℚ) :
    (updateFaders st t).mFilterType = st.mFilterType ∧
    (updateFaders st t).mActive = st.mActive ∧
    coeffs (updateFaders st t) = coeffs st ∧
    (updateFaders st t).mX1 = st.mX1 ∧
    (updateFaders st t).mX2 = st.mX2 ∧
    (updateFaders st t).mY1 = st.mY1 ∧
    (updateFaders st t).mY2 = st.mY2 := by
  unfold updateFaders
  rcases updateSRFader_cases (updateResFader (updateFreqFader st t) t) t
    with h3 | h3 <;> rw [h3] <;>
  rcases updateResFader_cases (updateFreqFader st t) t
    with h2 | h2 <;> rw [h2] <;>
  rcases updateFreqFader_cases st t with h1 | h1 <;> rw [h1] <;>
  simp [coeffs]

theorem updateFaders_inactive (st : BiquadResonantFilterInstance) (t : ℚ)
    (h1 : st.mFrequencyFader.mActive ≤ 0)
    (h2 : st.mResonanceFader.mActive ≤ 0)
    (h3 : st.mSampleRateFader.mActive ≤ 0) :
    updateFaders st t = st := by
  unfold updateFaders updateFreqFader updateResFader updateSRFader
  rw [if_neg (not_lt.2 h1), if_neg (not_lt.2 h2), if_neg (not_lt.2 h3)]

theorem updateFaders_not_dirty (st : BiquadResonantFilterInstance)
    (t : ℚ) (h : (updateFaders st t).mDirty = false) :
    updateFaders st t = st := by
  unfold updateFaders at h ⊢
  rcases updateSRFader_cases (updateResFader (updateFreqFader st t) t) t
    with h3 | h3 <;> rw [h3] at h ⊢ <;>
  rcases updateResFader_cases (updateFreqFader st t) t
    with h2 | h2 <;> rw [h2] at h ⊢ <;>
  rcases updateFreqFader_cases st t with h1 | h1 <;> rw [h1] at h ⊢ <;>
  simp_all

theorem processChannel_frame (pitch n : ℕ) (s : Fin 2) (buf : ℕ → ℚ)
    (st : BiquadResonantFilterInstance) :
    (processChannel pitch n s buf st).2.mFilterType = st.mFilterType ∧
    (processChannel pitch n s buf st).2.mFrequency = st.mFrequency ∧
    (processChannel pitch n s buf st).2.mSampleRate = st.mSampleRate ∧
    (processChannel pitch n s buf st).2.mResonance = st.mResonance ∧
    (processChannel pitch n s buf st).2.mActive = st.mActive ∧
    (processChannel pitch n s buf st).2.mDirty = st.mDirty ∧
    coeffs (processChannel pitch n s buf st).2 = coeffs st ∧
    (processChannel pitch n s buf st).2.mFrequencyFader
      = st.mFrequencyFader ∧
    (processChannel pitch n s buf st).2.mSampleRateFader
      = st.mSampleRateFader ∧
    (processChannel pitch n s buf st).2.mResonanceFader
      = st.mResonanceFader := by
  simp [processChannel, coeffs]

theorem inv_congr (ops : TransOps)
    (st st' : BiquadResonantFilterInstance)
    (ht : st'.mFilterType = st.mFilterType)
    (hf : st'.mFrequency = st.mFrequency)
    (hs : st'.mSampleRate = st.mSampleRate)
    (hr : st'.mResonance = st.mResonance)
    (hc : coeffs st' = coeffs st)
    (hd : st'.mDirty = st.mDirty)
    (hInv : Inv ops st) : Inv ops st' := by
  intro h
  rw [hd] at h
  have hcc := hInv h
  unfold coeffsConsistent at hcc ⊢
  calc coeffs (calcBQRParams ops st')
      = coeffs (calcBQRParams ops st) :=
        calc_coeffs_congr ops st st' ht hf hs hr hc
    _ = coeffs st := hcc
    _ = coeffs st' := hc.symm

theorem stage_frame (ops : TransOps) (st : BiquadResonantFilterInstance)
    (t : ℚ) :
    (filterParamStage ops st t).mFilterType = st.mFilterType ∧
    (filterParamStage ops st t).mX1 = st.mX1 ∧
    (filterParamStage ops st t).mX2 = st.mX2 ∧
    (filterParamStage ops st t).mY1 = st.mY1 ∧
    (filterParamStage ops st t).mY2 = st.mY2 := by
  obtain ⟨hft, hac, hco, hx1, hx2, hy1, hy2⟩ := updateFaders_frame st t
  unfold filterParamStage
  split_ifs <;>
    simp [calc_mFilterType, calc_mX1, calc_mX2, calc_mY1, calc_mY2,
      hft, hx1, hx2, hy1, hy2]

theorem inv_processChannel (ops : TransOps) (pitch n : ℕ) (s : Fin 2)
    (buf : ℕ → ℚ) (st : BiquadResonantFilterInstance)
    (hInv : Inv ops st) : Inv ops (processChannel pitch n s buf st).2 :=
  inv_congr ops st _ (by simp [processChannel]) (by simp [processChannel])
    (by simp [processChannel]) (by simp [processChannel])
    (by simp [processChannel, coeffs]) (by simp [processChannel]) hInv

theorem filter_eq_mono (ops : TransOps)
    (st : BiquadResonantFilterInstance) (buf : ℕ → ℚ) (n : ℕ) (sr t : ℚ)
    (h : st.mActive = true) :
    filter ops st buf n false sr t =
      ((processChannel 1 n 0 buf (filterParamStage ops st t)).2,
       (processChannel 1 n 0 buf (filterParamStage ops st t)).1) := by
  simp [filter, h]

theorem filter_eq_stereo (ops : TransOps)
    (st : BiquadResonantFilterInstance) (buf : ℕ → ℚ) (n : ℕ) (sr t : ℚ)
    (h : st.mActive = true) :
    filter ops st buf n true sr t =
      ((processChannel 2 n 1
          (processChannel 2 n 0 buf (filterParamStage ops st t)).1
          (processChannel 2 n 0 buf (filterParamStage ops st t)).2).2,
       (processChannel 2 n 1
          (processChannel 2 n 0 buf (filterParamStage ops st t)).1
          (processChannel 2 n 0 buf (filterParamStage ops st t)).2).1) := by
  simp [filter, h]

theorem filter_frame_active (ops : TransOps)
    (st : BiquadResonantFilterInstance) (buf : ℕ → ℚ) (n : ℕ)
    (stereo : Bool) (sr t : ℚ) (h : st.mActive = true) :
    coeffs (filter ops st buf n stereo sr t).1
      = coeffs (filterParamStage ops st t) ∧
    (filter ops st buf n stereo sr t).1.mDirty
      = (filterParamStage ops st t).mDirty ∧
    (filter ops st buf n stereo sr t).1.mActive
      = (filterParamStage ops st t).mActive ∧
    (filter ops st buf n stereo sr t).1.mFrequencyFader
      = (filterParamStage ops st t).mFrequencyFader ∧
    (filter ops st buf n stereo sr t).1.mSampleRateFader
      = (filterParamStage ops st t).mSampleRateFader ∧
    (filter ops st buf n stereo sr t).1.mResonanceFader
      = (filterParamStage ops st t).mResonanceFader ∧
    (filter ops st buf n stereo sr t).1.mFilterType
      = (filterParamStage ops st t).mFilterType ∧
    (filter ops st buf n stereo sr t).1.mFrequency
      = (filterParamStage ops st t).mFrequency ∧
    (filter ops st buf n stereo sr t).1.mSampleRate
      = (filterParamStage ops st t).mSampleRate ∧
    (filter ops st buf n stereo sr t).1.mResonance
      = (filterParamStage ops st t).mResonance := by
  cases stereo
  · rw [filter_eq_mono ops st buf n sr t h]
    simp [processChannel, coeffs]
  · rw [filter_eq_stereo ops st buf n sr t h]
    simp [processChannel, coeffs]

theorem updateResFader_mFrequency (st : BiquadResonantFilterInstance)
    (t : ℚ) : (updateResFader st t).mFrequency = st.mFrequency := by
  unfold updateResFader
  split_ifs <;> rfl

theorem updateSRFader_mFrequency (st : BiquadResonantFilterInstance)
    (t : ℚ) : (updateSRFader st t).mFrequency = st.mFrequency := by
  unfold updateSRFader
  split_ifs <;> rfl

theorem updateSRFader_mResonance (st : BiquadResonantFilterInstance)
    (t : ℚ) : (updateSRFader st t).mResonance = st.mResonance := by
  unfold updateSRFader
  split_ifs <;> rfl

theorem updateFreqFader_mResonanceFader
    (st : BiquadResonantFilterInstance) (t : ℚ) :
    (updateFreqFader st t).mResonanceFader = st.mResonanceFader := by
  unfold updateFreqFader
  split_ifs <;> rfl

theorem updateFreqFader_mSampleRateFader
    (st : BiquadResonantFilterInstance) (t : ℚ) :
    (updateFreqFader st t).mSampleRateFader = st.mSampleRateFader := by
  unfold updateFreqFader
  split_ifs <;> rfl

theorem updateResFader_mSampleRateFader
    (st : BiquadResonantFilterInstance) (t : ℚ) :
    (updateResFader st t).mSampleRateFader = st.mSampleRateFader := by
  unfold updateResFader
  split_ifs <;> rfl

theorem updateResFader_dirty (st : BiquadResonantFilterInstance) (t : ℚ)
    (h : st.mDirty = true) : (updateResFader st t).mDirty = true := by
  unfold updateResFader
  split_ifs <;> simp [h]

theorem updateSRFader_dirty (st : BiquadResonantFilterInstance) (t : ℚ)
    (h : st.mDirty = true) : (updateSRFader st t).mDirty = true := by
  unfold updateSRFader
  split_ifs <;> simp [h]

/-- C4: on a `filter` call on an active instance, (a) each active fader's
value at the current time is stored into the matching parameter field and
the dirty flag is set; (b) coefficients are recomputed iff the dirty flag
is set after fader polling, and afterwards the dirty flag is clear;
(c) consequently, starting clean with no active fader, the parameter
stage of the call is the identity and a consecutive second call still
uses bit-identical coefficients with no recomputation. -/
theorem filter_fader_dirty_discipline (ops : TransOps)
    (st : BiquadResonantFilterInstance) (buf : ℕ → ℚ) (n : ℕ)
    (stereo : Bool) (sr t t2 : ℚ) (h : st.mActive = true) :
    ((st.mFrequencyFader.mActive > 0 →
        (updateFaders st t).mFrequency = (st.mFrequencyFader.get t).1 ∧
        (updateFaders st t).mDirty = true) ∧
     (st.mResonanceFader.mActive > 0 →
        (updateFaders st t).mResonance = (st.mResonanceFader.get t).1 ∧
        (updateFaders st t).mDirty = true) ∧
     (st.mSampleRateFader.mActive > 0 →
        (updateFaders st t).mSampleRate = (st.mSampleRateFader.get t).1 ∧
        (updateFaders st t).mDirty = true)) ∧
    (((updateFaders st t).mDirty = true →
        filterParamStage ops st t
          = calcBQRParams ops (updateFaders st t)) ∧
     ((updateFaders st t).mDirty = false →
        filterParamStage ops st t = updateFaders st t) ∧
     (filterParamStage ops st t).mDirty = false) ∧
    (st.mDirty = false → st.mFrequencyFader.mActive ≤ 0 →
     st.mResonanceFader.mActive ≤ 0 → st.mSampleRateFader.mActive ≤ 0 →
      filterParamStage ops st t = st ∧
      coeffs (filter ops st buf n stereo sr t).1 = coeffs st ∧
      filterParamStage ops (filter ops st buf n stereo sr t).1 t2
        = (filter ops st buf n stereo sr t).1 ∧
      coeffs (filterParamStage ops
        (filter ops st buf n stereo sr t).1 t2) = coeffs st) := by
  refine ⟨⟨fun hf => ⟨?_, ?_⟩, fun hr => ⟨?_, ?_⟩, fun hs => ⟨?_, ?_⟩⟩,
    ⟨fun hd => ?_, fun hd => ?_, ?_⟩, fun hd h1 h2 h3 => ?_⟩
  · unfold updateFaders
    rw [updateSRFader_mFrequency, updateResFader_mFrequency,
      updateFreqFader_active st t hf]
  · unfold updateFaders
    exact updateSRFader_dirty _ t (updateResFader_dirty _ t
      (by rw [updateFreqFader_active st t hf]))
  · unfold updateFaders
    rw [updateSRFader_mResonance,
      updateResFader_active _ t
        (by rw [updateFreqFader_mResonanceFader]; exact hr)]
    simp [updateFreqFader_mResonanceFader]
  · unfold updateFaders
    exact updateSRFader_dirty _ t
      (by rw [updateResFader_active _ t
        (by rw [updateFreqFader_mResonanceFader]; exact hr)])
  · unfold updateFaders
    rw [updateSRFader_active _ t
      (by rw [updateResFader_mSampleRateFader,
        updateFreqFader_mSampleRateFader]; exact hs)]
    simp [updateResFader_mSampleRateFader,
      updateFreqFader_mSampleRateFader]
  · unfold updateFaders
    rw [updateSRFader_active _ t
      (by rw [updateResFader_mSampleRateFader,
        updateFreqFader_mSampleRateFader]; exact hs)]
  · unfold filterParamStage
    rw [if_pos hd]
  · unfold filterParamStage
    rw [if_neg (by simp [hd])]
  · by_cases hd : (updateFaders st t).mDirty = true
    · unfold filterParamStage
      rw [if_pos hd]
      exact calc_mDirty ops _
    · have hd' : (updateFaders st t).mDirty = false := by simpa using hd
      unfold filterParamStage
      rw [if_neg hd]
      exact hd'
  · have huf : updateFaders st t = st := updateFaders_inactive st t h1 h2 h3
    have hstage : filterParamStage ops st t = st := by
      unfold filterParamStage
      rw [huf, if_neg (by simp [hd])]
    obtain ⟨hc, hdirty, hact, hff, hsf, hrf, _, _, _, _⟩ :=
      filter_frame_active ops st buf n stereo sr t h
    have hc1 : coeffs (filter ops st buf n stereo sr t).1 = coeffs st := by
      rw [hc, hstage]
    have hd1 : (filter ops st buf n stereo sr t).1.mDirty = false := by
      rw [hdirty, hstage]; exact hd
    have hf1 : (filter ops st buf n stereo sr t).1.mFrequencyFader
        = st.mFrequencyFader := by rw [hff, hstage]
    have hs1 : (filter ops st buf n stereo sr t).1.mSampleRateFader
        = st.mSampleRateFader := by rw [hsf, hstage]
    have hr1 : (filter ops st buf n stereo sr t).1.mResonanceFader
        = st.mResonanceFader := by rw [hrf, hstage]
    have huf1 : updateFaders (filter ops st buf n stereo sr t).1 t2
        = (filter ops st buf n stereo sr t).1 :=
      updateFaders_inactive _ t2 (by rw [hf1]; exact h1)
        (by rw [hr1]; exact h2) (by rw [hs1]; exact h3)
    have hstage1 : filterParamStage ops
        (filter ops st buf n stereo sr t).1 t2
        = (filter ops st buf n stereo sr t).1 := by
      unfold filterParamStage
      rw [huf1, if_neg (by simp [hd1])]
    exact ⟨hstage, hc1, hstage1, by rw [hstage1, hc1]⟩

/-- Witness for C4: on a concrete instance with an armed frequency ramp,
the fader value is stored and the dirty flag set. -/
theorem filter_fader_dirty_discipline_witness :
    (updateFaders fadedInst 0).mFrequency
      = (fadedInst.mFrequencyFader.get 0).1 ∧
    (updateFaders fadedInst 0).mDirty = true :=
  (filter_fader_dirty_discipline testOps fadedInst (fun _ => 0) 2 false
    44100 0 1 (by decide)).1.1 (by decide)

/-- C6: the coefficient-consistency invariant — whenever the dirty flag
is clear, the stored `a0, a1, a2, b1, b2` equal the §4.1 coefficients of
the instance's current type, sample rate, frequency and resonance — is
established by the constructor and preserved by `setFilterParameter`,
`fadeFilterParameter`, `oscillateFilterParameter` and `filter`. -/
theorem inv_preservation (ops : TransOps) :
    (∀ (parent : BiquadResonantFilter) (mem : UninitMem),
      Inv ops (construct ops parent mem)) ∧
    (∀ (st : BiquadResonantFilterInstance) (id : ℤ) (v : ℚ),
      Inv ops st → Inv ops (setFilterParameter st id v)) ∧
    (∀ (st : BiquadResonantFilterInstance) (id : ℤ) (f g d s0 : ℚ),
      Inv ops st → Inv ops (fadeFilterParameter st id f g d s0)) ∧
    (∀ (st : BiquadResonantFilterInstance) (id : ℤ) (f g d s0 : ℚ),
      Inv ops st → Inv ops (oscillateFilterParameter st id f g d s0)) ∧
    (∀ (st : BiquadResonantFilterInstance) (buf : ℕ → ℚ) (n : ℕ)
      (stereo : Bool) (sr t : ℚ),
      Inv ops st → Inv ops (filter ops st buf n stereo sr t).1) := by
  refine ⟨?_, ?_, ?_, ?_, ?_⟩
  · intro parent mem _
    exact calc_consistent ops _
  · intro st id v hInv
    unfold setFilterParameter
    split_ifs <;> (try exact hInv) <;> intro h <;> simp at h
  · intro st id f g d s0 hInv
    unfold fadeFilterParameter
    split_ifs <;> (try exact hInv) <;>
      exact inv_congr ops st _ rfl rfl rfl rfl rfl rfl hInv
  · intro st id f g d s0 hInv
    unfold oscillateFilterParameter
    split_ifs <;> (try exact hInv) <;>
      exact inv_congr ops st _ rfl rfl rfl rfl rfl rfl hInv
  · intro st buf n stereo sr t hInv
    cases ha : st.mActive
    · simp [filter, ha]
      exact hInv
    · have hInv2 : Inv ops (filterParamStage ops st t) := by
        unfold filterParamStage
        split_ifs with hd
        · intro _
          exact calc_consistent ops _
        · have hd' : (updateFaders st t).mDirty = false := by
            simpa using hd
          rw [updateFaders_not_dirty st t hd']
          exact hInv
      cases stereo
      · rw [filter_eq_mono ops st buf n sr t ha]
        exact inv_processChannel ops 1 n 0 buf _ hInv2
      · rw [filter_eq_stereo ops st buf n sr t ha]
        exact inv_processChannel ops 2 n 1 _ _
          (inv_processChannel ops 2 n 0 buf _ hInv2)

/-- Witness for C6: the invariant holds of the constructed test instance
and is preserved by a concrete `setFilterParameter` call on it. -/
theorem inv_preservation_witness :
    Inv testOps (setFilterParameter testInst FREQUENCY 500) :=
  (inv_preservation testOps).2.1 testInst FREQUENCY 500
    ((inv_preservation testOps).1 testTemplate testMem)

/-- C8: the instance constructor copies exactly the template's `type`,
`sampleRate` and `resonance`, zeroes both channels' `x1, x2, y1, y2`
history, computes the initial coefficients immediately (the constructed
state is already a fixed point of `calcBQRParams`), and does not write the
frequency field, which keeps its default-initialized (indeterminate)
value. -/
theorem construct_spec (ops : TransOps) (parent : BiquadResonantFilter)
    (mem : UninitMem) :
    (construct ops parent mem).mFilterType = parent.mFilterType ∧
    (construct ops parent mem).mSampleRate = parent.mSampleRate ∧
    (construct ops parent mem).mResonance = parent.mResonance ∧
    (construct ops parent mem).mFrequency = mem.mFrequency ∧
    (∀ s : Fin 2,
      (construct ops parent mem).mX1 s = 0 ∧
      (construct ops parent mem).mX2 s = 0 ∧
      (construct ops parent mem).mY1 s = 0 ∧
      (construct ops parent mem).mY2 s = 0) ∧
    calcBQRParams ops (construct ops parent mem)
      = construct ops parent mem := by
  refine ⟨?_, ?_, ?_, ?_, fun s => ⟨?_, ?_, ?_, ?_⟩, calc_idem ops _⟩ <;>
    simp [construct, calc_mFilterType, calc_mFrequency,
      calc_mSampleRate, calc_mResonance, calc_mX1, calc_mX2,
      calc_mY1, calc_mY2]

/-- C9: on a `filter` call on an active instance, after each processed
channel's sample loop the constant `1.0E-26` is added to that channel's
`mY1` history, and that addition is the only post-loop modification: the
other three history slots equal the loop's outputs and the returned buffer
is exactly the loop's buffer (channel 0 for mono; channels 0 then 1, the
latter on channel 0's output buffer, for stereo). -/
theorem filter_denormal_bias (ops : TransOps)
    (st : BiquadResonantFilterInstance) (buf : ℕ → ℚ) (n : ℕ) (sr t : ℚ)
    (h : st.mActive = true) :
    (let st2 := filterParamStage ops st t
     let r := filterLoop st2.mA0 st2.mA1 st2.mA2 st2.mB1 st2.mB2 1 0 0 n
       buf ⟨st2.mX1 0, st2.mX2 0, st2.mY1 0, st2.mY2 0⟩
     (filter ops st buf n false sr t).1.mY1 0 = r.2.y1 + 1 / 10 ^ 26 ∧
     (filter ops st buf n false sr t).1.mX1 0 = r.2.x1 ∧
     (filter ops st buf n false sr t).1.mX2 0 = r.2.x2 ∧
     (filter ops st buf n false sr t).1.mY2 0 = r.2.y2 ∧
     (filter ops st buf n false sr t).2 = r.1) ∧
    (let st2 := filterParamStage ops st t
     let r0 := filterLoop st2.mA0 st2.mA1 st2.mA2 st2.mB1 st2.mB2 2 0 0 n
       buf ⟨st2.mX1 0, st2.mX2 0, st2.mY1 0, st2.mY2 0⟩
     let r1 := filterLoop st2.mA0 st2.mA1 st2.mA2 st2.mB1 st2.mB2 2 1 0 n
       r0.1 ⟨st2.mX1 1, st2.mX2 1, st2.mY1 1, st2.mY2 1⟩
     (filter ops st buf n true sr t).1.mY1 0 = r0.2.y1 + 1 / 10 ^ 26 ∧
     (filter ops st buf n true sr t).1.mY1 1 = r1.2.y1 + 1 / 10 ^ 26 ∧
     (filter ops st buf n true sr t).1.mX1 0 = r0.2.x1 ∧
     (filter ops st buf n true sr t).1.mX1 1 = r1.2.x1 ∧
     (filter ops st buf n true sr t).1.mX2 0 = r0.2.x2 ∧
     (filter ops st buf n true sr t).1.mX2 1 = r1.2.x2 ∧
     (filter ops st buf n true sr t).1.mY2 0 = r0.2.y2 ∧
     (filter ops st buf n true sr t).1.mY2 1 = r1.2.y2 ∧
     (filter ops st buf n true sr t).2 = r1.1) := by
  constructor
  · rw [filter_eq_mono ops st buf n sr t h]
    simp [processChannel, Function.update]
  · rw [filter_eq_stereo ops st buf n sr t h]
    simp [processChannel, Function.update]

/-- Witness for C9 at a concrete active instance, mono, two samples. -/
theorem filter_denormal_bias_witness :
    (let st2 := filterParamStage testOps testInst 0
     let r := filterLoop st2.mA0 st2.mA1 st2.mA2 st2.mB1 st2.mB2 1 0 0 2
       (fun _ => 1) ⟨st2.mX1 0, st2.mX2 0, st2.mY1 0, st2.mY2 0⟩
     (filter testOps testInst (fun _ => 1) 2 false 44100 0).1.mY1 0
       = r.2.y1 + 1 / 10 ^ 26 ∧
     (filter testOps testInst (fun _ => 1) 2 false 44100 0).1.mX1 0
       = r.2.x1 ∧
     (filter testOps testInst (fun _ => 1) 2 false 44100 0).1.mX2 0
       = r.2.x2 ∧
     (filter testOps testInst (fun _ => 1) 2 false 44100 0).1.mY2 0
       = r.2.y2 ∧
     (filter testOps testInst (fun _ => 1) 2 false 44100 0).2 = r.1) :=
  (filter_denormal_bias testOps testInst (fun _ => 1) 2 44100 0
    (by decide)).1

/-- C10: a mono `filter` call leaves the channel-1 history slots of
`mX1, mX2, mY1, mY2` untouched, and no `filter` call, with any arguments,
changes the instance's filter type. -/
theorem filter_mono_channel1_and_type_frame (ops : TransOps)
    (st : BiquadResonantFilterInstance) (buf : ℕ → ℚ) (n : ℕ)
    (sr t : ℚ) :
    ((filter ops st buf n false sr t).1.mX1 1 = st.mX1 1 ∧
     (filter ops st buf n false sr t).1.mX2 1 = st.mX2 1 ∧
     (filter ops st buf n false sr t).1.mY1 1 = st.mY1 1 ∧
     (filter ops st buf n false sr t).1.mY2 1 = st.mY2 1) ∧
    ∀ stereo : Bool,
      (filter ops st buf n stereo sr t).1.mFilterType = st.mFilterType := by
  obtain ⟨hft, hx1, hx2, hy1, hy2⟩ := stage_frame ops st t
  cases ha : st.mActive
  · constructor
    · simp [filter, ha]
    · intro stereo
      simp [filter, ha]
  · constructor
    · rw [filter_eq_mono ops st buf n sr t ha]
      simp [processChannel, Function.update, hx1, hx2, hy1, hy2]
    · intro stereo
      cases stereo
      · rw [filter_eq_mono ops st buf n sr t ha]
        simp [processChannel, hft]
      · rw [filter_eq_stereo ops st buf n sr t ha]
        simp [processChannel, hft]

end SoLoud
